import Mathlib

/-!
Shallow embedding of the video-processing pipeline of this repository.

Translated sources:
* src/processor/encoder.py  (class VideoProcessor: run, _apply_cartoon_opencv,
  _apply_ffmpeg_filters, _generate_output_path)
* src/utils/storage.py      (check_disk_space, format_size)

Modelling conventions:
* Python float arithmetic is modelled as exact rational arithmetic over ℚ.
* Python int() is truncation toward zero (pyInt below).
* External effects (disk query, download, video decode, child processes) are
  modelled by an explicit environment record; fallible external calls are
  oracles recorded in that environment.
* The cooperative cancellation flag is modelled by a schedule: the flag is
  observed set at a checkpoint exactly when the number of frames processed so
  far has reached the scheduled count.
-/

namespace EyeTest

/-- Python int() applied to an exact rational value: truncation toward zero. -/
def pyInt (q : ℚ) : ℤ := if 0 ≤ q then ⌊q⌋ else -⌊-q⌋

/-- Python str.lower() (ASCII reading). -/
def pyLower (s : String) : String := ⟨s.data.map Char.toLower⟩

/-- One occlusion region ("black bar"), a normalized rectangle as produced by
the bar editor: fields x, y, width, height, each a fraction of the frame.
Mirrors the dict keys used in encoder.py line 307-311. -/
structure Bar where
  x : ℚ
  y : ℚ
  width : ℚ
  height : ℚ
deriving DecidableEq

/-- The constructor state of class VideoProcessor (encoder.py lines 56-77):
exactly the fields assigned in __init__ that the translated methods read. -/
structure VideoProcessor where
  input_path : String
  output_folder : String
  bars : List Bar
  trim_seconds : ℕ
  filter_name : String
  original_url : Option String
  add_logo : Bool
  mirror : Bool
deriving DecidableEq

/-- An absolute pixel rectangle as passed to the drawbox filter. -/
structure PixelRect where
  x : ℤ
  y : ℤ
  w : ℤ
  h : ℤ
deriving DecidableEq

/-- The raw (pre-clamp) drawbox x coordinate computed by encoder.py line 308:
x = int((1 - bar['x'] - bar['width']) * width). -/
def barRawX (b : Bar) (width : ℤ) : ℤ := pyInt ((1 - b.x - b.width) * (width : ℚ))

/-- The pixel rectangle computed for one occlusion region by
encoder.py lines 307-317: normalized-to-pixel conversion with the x
coordinate reflected in normalized space (line 308), followed by the
clamping of lines 314-317. -/
def barPixelRect (b : Bar) (width height : ℤ) : PixelRect :=
  let x0 := barRawX b width
  let y0 := pyInt (b.y * (height : ℚ))
  let w0 := pyInt (b.width * (width : ℚ))
  let h0 := pyInt (b.height * (height : ℚ))
  let x := max 0 (min x0 (width - 1))
  let y := max 0 (min y0 (height - 1))
  let w := max 1 (min w0 (width - x))
  let h := max 1 (min h0 (height - y))
  ⟨x, y, w, h⟩

/-- Spec-side definition (refinement comparison for the claim wording): the
pixel rectangle of a region as originally drawn, with no mirroring applied,
namely each normalized coordinate scaled by the frame size and truncated.
The claim formula x-prime = width - x - w is stated with respect to the x and
w fields of this rectangle. -/
def unmirroredRect (b : Bar) (width height : ℤ) : PixelRect :=
  ⟨pyInt (b.x * (width : ℚ)), pyInt (b.y * (height : ℚ)),
   pyInt (b.width * (width : ℚ)), pyInt (b.height * (height : ℚ))⟩

/-- A video frame, abstracted as pixel values indexed by integer coordinates. -/
def Frame : Type := ℤ → ℤ → ℕ

/-- Horizontal flip (the hflip filter) of a frame of the given pixel width. -/
def mirrorFrame (width : ℤ) (f : Frame) : Frame :=
  fun x y => f (width - 1 - x) y

/-- Drawing an opaque (black, value 0) filled rectangle over a frame:
the semantics of drawbox with t=fill and color=black. -/
def occlude (r : PixelRect) (f : Frame) : Frame :=
  fun x y => if r.x ≤ x ∧ x < r.x + r.w ∧ r.y ≤ y ∧ y < r.y + r.h then 0 else f x y

/-- Reflection of a pixel rectangle across the vertical centerline of a frame
of the given width: the x coordinate becomes width - x - w. -/
def reflectRect (width : ℤ) (r : PixelRect) : PixelRect :=
  ⟨width - r.x - r.w, r.y, r.w, r.h⟩

/-- FILTER_PRESETS of encoder.py lines 30-39: name paired with the ffmpeg
filter fragment. -/
def FILTER_PRESETS : List (String × String) :=
  [("WARM", "colorbalance=rm=0.12:bm=-0.12,hue=s=1.30,format=yuv420p,lutyuv=y=val*1.30"),
   ("COOL", "colorbalance=rm=-0.08:bm=0.08,hue=s=0.80,format=yuv420p,lutyuv=y=(val-128)*1.05+128")]

/-- Dictionary lookup self.FILTER_PRESETS[self.filter_name] guarded by the
membership test of encoder.py line 300: the dictionary has exactly the keys
WARM and COOL. -/
def presetLookup (n : String) : Option String :=
  if n = "WARM" then some "colorbalance=rm=0.12:bm=-0.12,hue=s=1.30,format=yuv420p,lutyuv=y=val*1.30"
  else if n = "COOL" then some "colorbalance=rm=-0.08:bm=0.08,hue=s=0.80,format=yuv420p,lutyuv=y=(val-128)*1.05+128"
  else none

/-- COPYRIGHT_AVOIDANCE constants, encoder.py lines 42-48 (exact rationals for
the float literals 1.12, 1.08, 0.5). -/
def COPYRIGHT_speed : ℚ := 112 / 100

/-- Zoom constant 1.08 of COPYRIGHT_AVOIDANCE. -/
def COPYRIGHT_zoom : ℚ := 108 / 100

/-- Border constant 10 of COPYRIGHT_AVOIDANCE. -/
def COPYRIGHT_border : ℤ := 10

/-- Rotation constant 0.5 of COPYRIGHT_AVOIDANCE. -/
def COPYRIGHT_rotation : ℚ := 1 / 2

/-- Grain strength constant 8 of COPYRIGHT_AVOIDANCE. -/
def COPYRIGHT_grain : ℤ := 8

/-- One element of the filters list built by _apply_ffmpeg_filters
(encoder.py lines 296-352).  Each constructor corresponds to one string
appended to the filters list:
* preset s        — the color preset fragment s (line 301)
* hflip           — "hflip" (line 304)
* drawbox r       — "drawbox=x=..:y=..:w=..:h=..:color=black:t=fill" (line 319)
* cropScale ..    — "crop=cw:ch:cx:cy,scale=sw:sh" (lines 328 and 338)
* rotate d        — "rotate=d*PI/180:bilinear=1:fillcolor=black" (line 335)
* padCrop b w h   — "pad=w+2b:h+2b:b:b:black,crop=w:h:b:b" (line 344)
* noise s         — "noise=alls=s:allf=t" (line 349)
* scaleLanczos    — "scale=w:h:flags=lanczos" (line 352) -/
inductive FilterStep where
  | preset (s : String)
  | hflip
  | drawbox (r : PixelRect)
  | cropScale (cw ch cx cy sw sh : ℤ)
  | rotate (deg : ℚ)
  | padCrop (b w h : ℤ)
  | noise (strength : ℤ)
  | scaleLanczos (w h : ℤ)
deriving DecidableEq

/-- The ordered filters list built by _apply_ffmpeg_filters (encoder.py lines
296-352) for a processor and the probed source dimensions.  Note that the
method reads self.filter_name and self.bars but never self.mirror: the hflip
step is appended unconditionally (lines 303-304, comment "always on"). -/
def buildFilterSteps (p : VideoProcessor) (width height : ℤ) : List FilterStep :=
  (match presetLookup p.filter_name with
   | some s => [FilterStep.preset s]
   | none => []) ++
  [FilterStep.hflip] ++
  p.bars.map (fun b => FilterStep.drawbox (barPixelRect b width height)) ++
  (if 1 < COPYRIGHT_zoom then
    [FilterStep.cropScale (pyInt ((width : ℚ) / COPYRIGHT_zoom))
      (pyInt ((height : ℚ) / COPYRIGHT_zoom))
      ((width - pyInt ((width : ℚ) / COPYRIGHT_zoom)) / 2)
      ((height - pyInt ((height : ℚ) / COPYRIGHT_zoom)) / 2) width height]
   else []) ++
  (if COPYRIGHT_rotation ≠ 0 then
    [FilterStep.rotate COPYRIGHT_rotation,
     FilterStep.cropScale (width - 2 * pyInt ((max width height : ℚ) * (2 / 100)))
       (height - 2 * pyInt ((max width height : ℚ) * (2 / 100)))
       (pyInt ((max width height : ℚ) * (2 / 100)))
       (pyInt ((max width height : ℚ) * (2 / 100))) width height]
   else []) ++
  (if 0 < COPYRIGHT_border then [FilterStep.padCrop COPYRIGHT_border width height] else []) ++
  (if 0 < COPYRIGHT_grain then [FilterStep.noise COPYRIGHT_grain] else []) ++
  [FilterStep.scaleLanczos width height]

/-- Output frame dimensions of a filter step, given its input dimensions.
Color presets, hflip, drawbox and noise preserve dimensions; crop+scale,
pad+crop and scale end at their stated target size; rotate keeps the frame
size (ffmpeg rotate pads into the same canvas by default). -/
def stepOutDims : FilterStep → ℤ × ℤ → ℤ × ℤ
  | FilterStep.preset _, d => d
  | FilterStep.hflip, d => d
  | FilterStep.drawbox _, d => d
  | FilterStep.cropScale _ _ _ _ sw sh, _ => (sw, sh)
  | FilterStep.rotate _, d => d
  | FilterStep.padCrop _ w h, _ => (w, h)
  | FilterStep.noise _, d => d
  | FilterStep.scaleLanczos w h, _ => (w, h)

/-- Each filter step paired with the frame dimensions current at the point in
the chain where that step is applied, starting from the given input
dimensions. -/
def dimsBefore (init : ℤ × ℤ) : List FilterStep → List (FilterStep × (ℤ × ℤ))
  | [] => []
  | s :: rest => (s, init) :: dimsBefore (stepOutDims s init) rest

/-- Cartoon-stage processing height, encoder.py line 201. -/
def process_height : ℤ := 720

/-- Cartoon-stage processing width, encoder.py line 202:
int(width * (process_height / height)). -/
def process_width (width height : ℤ) : ℤ :=
  pyInt ((width : ℚ) * ((process_height : ℚ) / (height : ℚ)))

/-- Frame dimensions of the intermediate file written by the cartoon stage
(encoder.py line 214: the VideoWriter is opened at
(process_width, process_height)); this file is the input of the ffmpeg
filter-graph stage (run, line 155). -/
def cartoonOutDims (width height : ℤ) : ℤ × ℤ :=
  (process_width width height, process_height)

/-- Observable events of the cartoon-stage frame loop (encoder.py lines
233-281).  The event vocabulary also contains the thermal-pacing events the
specification describes (temperature sampling and sleeping) so that claims
about them can be stated; the translated loop body never emits them. -/
inductive Ev where
  | writeFrame (k : ℕ)
  | progress (pct : ℚ)
  | debugPrint (k : ℕ)
  | tempSample
  | sleep (seconds : ℚ)
deriving DecidableEq

/-- How the cartoon-stage frame loop ended. -/
inductive LoopExit where
  | finished
  | cancelled
  | crashed
deriving DecidableEq

/-- Result of the cartoon-stage frame loop: how it exited, how many frames it
wrote, and the events it emitted in order. -/
structure LoopResult where
  exit : LoopExit
  frames : ℕ
  trace : List Ev
deriving DecidableEq

/-- Cancellation schedule: the flag is observed set at a checkpoint exactly
when the number of frames processed so far has reached the scheduled count
(none means the caller never cancels). -/
def cancelFlag (ca : Option ℕ) (framesProcessed : ℕ) : Bool :=
  match ca with
  | some n => decide (n ≤ framesProcessed)
  | none => false

/-- Fixed data of one cartoon-stage frame loop execution:
whether run was given a progress callback, the cancellation schedule, the
per-frame edge-computation failure oracle (OpenCV calls may raise), the
frames_to_process denominator, and the number of frames the decoder can
still deliver after the seek. -/
structure LoopEnv where
  hasCb : Bool
  cancelAfter : Option ℕ
  edgeFails : ℕ → Bool
  ftp : ℤ
  avail : ℕ

/-- The frame loop of _apply_cartoon_opencv (encoder.py lines 233-281),
iteration by iteration.  remaining is the number of loop iterations still
allowed by the condition frame_count < frames_to_process; fc is frame_count.
Each iteration: check the cancellation flag (lines 234-237); read a frame
(lines 239-241, failing when the decoder is exhausted, which breaks the
loop); run the per-frame edge computation (lines 243-270, which has no
exception handler, so a failure propagates out of the stage); write the
frame and increment frame_count (lines 274-275); report progress every 30
frames (lines 277-278) and print a debug line every 500 frames (280-281). -/
def cartoonLoop (e : LoopEnv) : ℕ → ℕ → LoopResult
  | 0, fc => ⟨LoopExit.finished, fc, []⟩
  | r + 1, fc =>
    if cancelFlag e.cancelAfter fc then ⟨LoopExit.cancelled, fc, []⟩
    else if fc < e.avail then
      if e.edgeFails fc then ⟨LoopExit.crashed, fc, []⟩
      else
        let rest := cartoonLoop e r (fc + 1)
        ⟨rest.exit, rest.frames,
          Ev.writeFrame fc ::
            ((if e.hasCb ∧ (fc + 1) % 30 = 0 then
                [Ev.progress (((fc : ℚ) + 1) / (e.ftp : ℚ) * 100)]
              else []) ++
             (if (fc + 1) % 500 = 0 then [Ev.debugPrint (fc + 1)] else []) ++
             rest.trace)⟩
    else ⟨LoopExit.finished, fc, []⟩

/-- skip_frames of encoder.py line 205: int(fps * self.trim_seconds). -/
def skip_frames (fps : ℚ) (trim_seconds : ℕ) : ℤ := pyInt (fps * (trim_seconds : ℚ))

/-- frames_to_process of encoder.py lines 206-210. -/
def frames_to_process (fps : ℚ) (trim_seconds : ℕ) (total_frames : ℤ) : ℤ :=
  if 0 < skip_frames fps trim_seconds then total_frames - skip_frames fps trim_seconds
  else total_frames

/-- Decoder position after the optional seek of encoder.py line 207. -/
def seek_pos (fps : ℚ) (trim_seconds : ℕ) : ℤ :=
  if 0 < skip_frames fps trim_seconds then skip_frames fps trim_seconds else 0

/-- Number of frames the decoder can still deliver after the seek, when the
video actually decodes to decodable frames (reads succeed while the decoder
position is below that count, then fail). -/
def availFrames (fps : ℚ) (trim_seconds : ℕ) (decodable : ℤ) : ℕ :=
  (decodable - seek_pos fps trim_seconds).toNat

/-- External world of one run: the disk query, the downloader collaborator,
the decoded video properties, whether OpenCV capture and writer open, the
per-frame failure oracle with the message of the exception it raises, whether
a progress callback was supplied, and the ffmpeg executable and outcome. -/
structure RunEnv where
  diskQueryOk : Bool
  availableGB : ℚ
  downloadResult : Option String
  fps : ℚ
  totalFrames : ℤ
  decodableFrames : ℤ
  capOpens : Bool
  writerOpens : Bool
  edgeFails : ℕ → Bool
  frameErrMsg : String
  hasCb : Bool
  ffmpegFound : Bool
  ffmpegOk : Bool
  ffmpegPartialOnFail : Bool

/-- Substring test: Python in operator on strings (nonempty pattern). -/
def strContains (s pat : String) : Bool := decide (2 ≤ (s.splitOn pat).length)

/-- _is_youtube_url of encoder.py lines 471-473. -/
def isYoutubeUrl (u : String) : Bool := strContains u "youtube.com" || strContains u "youtu.be"

/-- The guard of encoder.py line 108: self.original_url and
self._is_youtube_url(self.original_url). -/
def wantsDownload (p : VideoProcessor) : Bool :=
  match p.original_url with
  | some u => isYoutubeUrl u
  | none => false

/-- check_disk_space of utils/storage.py lines 9-31: when the disk query
works it returns (available_gb >= required_gb, available_gb); when the query
raises it returns (True, 0), the permissive default. -/
def check_disk_space (queryOk : Bool) (availableGB requiredGB : ℚ) : Bool × ℚ :=
  if queryOk then (decide (requiredGB ≤ availableGB), availableGB) else (true, 0)

/-- Fixed-point rendering of a rational at one decimal place, the model of
Python format {:.1f} (rounding of the exact value to the nearest tenth). -/
def fmt1 (q : ℚ) : String :=
  let t : ℤ := round (q * 10)
  toString (t / 10) ++ "." ++ toString (t % 10)

/-- format_size of utils/storage.py lines 34-40, the unit loop unrolled. -/
def format_size (b : ℚ) : String :=
  if |b| < 1024 then fmt1 b ++ " B"
  else if |b / 1024| < 1024 then fmt1 (b / 1024) ++ " KB"
  else if |b / 1024 ^ 2| < 1024 then fmt1 (b / 1024 ^ 2) ++ " MB"
  else if |b / 1024 ^ 3| < 1024 then fmt1 (b / 1024 ^ 3) ++ " GB"
  else fmt1 (b / 1024 ^ 4) ++ " TB"

/-- Python pathlib Path(s).name: the component after the last separator. -/
def pathFileName (s : String) : String := (s.splitOn "/").getLastD s

/-- Python pathlib Path(s).stem: the file name without its last extension. -/
def pathStem (s : String) : String :=
  let f := pathFileName s
  let parts := f.splitOn "."
  if parts.length ≤ 1 then f else String.intercalate "." parts.dropLast

/-- The character class kept by re.sub(r'[^\w\s-]', '', s): word characters,
whitespace and hyphen (ASCII reading of \w). -/
def pySanitize (s : String) : String :=
  ⟨s.data.filter (fun c => c.isAlphanum || c == '_' || c.isWhitespace || c == '-')⟩

/-- _generate_output_path of encoder.py lines 454-461: sanitize the input
stem, strip, truncate to 50 characters, then append "_eyetest", an optional
lowercased filter suffix, and ".mp4" under the output folder.  The method
reads only self.input_path, self.filter_name and self.output_folder. -/
def generate_output_path (output_folder input_path filter_name : String) : String :=
  let input_name := ((pySanitize (pathStem input_path)).trim).take 50
  let filter_suffix := if filter_name = "" then "" else "_" ++ pyLower filter_name
  output_folder ++ "/" ++ input_name ++ "_eyetest" ++ filter_suffix ++ ".mp4"

/-- Output path of a Job as a function of the processor state. -/
def jobOutputPath (p : VideoProcessor) : String :=
  generate_output_path p.output_folder p.input_path p.filter_name

/-- Outcome of _apply_cartoon_opencv (encoder.py lines 184-287): the capture
or the writer may fail to open (returns False, lines 190-192 and 216-219);
otherwise the frame loop runs and either is cancelled (returns False),
crashes (the exception propagates), or finishes (returns True), carrying the
final frame count and the event trace. -/
inductive StageOut where
  | openFail
  | writerFail
  | cancelled (frames : ℕ) (trace : List Ev)
  | crashed (frames : ℕ) (trace : List Ev)
  | finished (frames : ℕ) (trace : List Ev)
deriving DecidableEq

/-- Frame count written by the stage (0 when nothing was opened). -/
def StageOut.framesCount : StageOut → ℕ
  | StageOut.openFail => 0
  | StageOut.writerFail => 0
  | StageOut.cancelled k _ => k
  | StageOut.crashed k _ => k
  | StageOut.finished k _ => k

/-- The loop environment _apply_cartoon_opencv sets up from the video
properties and the job (encoder.py lines 194-231). -/
def loopEnvOf (p : VideoProcessor) (env : RunEnv) (ca : Option ℕ) : LoopEnv :=
  ⟨env.hasCb, ca, env.edgeFails,
   frames_to_process env.fps p.trim_seconds env.totalFrames,
   availFrames env.fps p.trim_seconds env.decodableFrames⟩

/-- _apply_cartoon_opencv of encoder.py lines 184-287. -/
def cartoonStage (p : VideoProcessor) (env : RunEnv) (ca : Option ℕ) : StageOut :=
  if env.capOpens = false then StageOut.openFail
  else if env.writerOpens = false then StageOut.writerFail
  else
    let e := loopEnvOf p env ca
    let res := cartoonLoop e e.ftp.toNat 0
    match res.exit with
    | LoopExit.cancelled => StageOut.cancelled res.frames res.trace
    | LoopExit.crashed => StageOut.crashed res.frames res.trace
    | LoopExit.finished => StageOut.finished res.frames res.trace

deriving instance DecidableEq for Except

/-- Result of one run: the returned value or the raised exception message,
whether the temporary cartoon file and the final output file remain on disk,
and how many child processes were spawned. -/
structure RunResult where
  result : Except String (Option String)
  tempExists : Bool
  outputExists : Bool
  spawned : ℕ
deriving DecidableEq

/-- The body of the try block of VideoProcessor.run (encoder.py lines
98-179), with raw exception messages:
1. disk-space guard (lines 103-105);
2. optional download (lines 108-118);
3. cancellation check (lines 123-124);
4. output path generation (line 130, after input_path may have been
   reassigned to the downloaded file);
5. cartoon stage (lines 139-148): on failure or cancellation the temporary
   file is removed and None is returned; on a per-frame crash the exception
   propagates with the temporary file left behind;
6. ffmpeg stage (lines 155-167): "ffmpeg not found" is raised before any
   child process is spawned; otherwise the codec probe and the encode spawn
   two children; on success the temporary file is removed and the output
   path returned; on failure "FFmpeg processing failed" is raised after the
   temporary file was removed (the partially written output, if any, stays);
7. the cancellation re-checks of lines 161-164 use the flag value current
   after the loop. -/
def runInner (p : VideoProcessor) (env : RunEnv) (ca : Option ℕ) : RunResult :=
  let chk := check_disk_space env.diskQueryOk env.availableGB 2
  if chk.1 = false then
    ⟨Except.error ("Insufficient disk space. Need 2GB, have " ++
      format_size (chk.2 * 1024 ^ 3)), false, false, 0⟩
  else
    match (if wantsDownload p then env.downloadResult else some p.input_path) with
    | none => ⟨Except.error "Failed to download 1080p version", false, false, 0⟩
    | some inPath =>
      if cancelFlag ca 0 then ⟨Except.ok none, false, false, 0⟩
      else
        let outPath := generate_output_path p.output_folder inPath p.filter_name
        match cartoonStage p env ca with
        | StageOut.openFail => ⟨Except.ok none, false, false, 0⟩
        | StageOut.writerFail => ⟨Except.ok none, false, false, 0⟩
        | StageOut.crashed _ _ => ⟨Except.error env.frameErrMsg, true, false, 0⟩
        | StageOut.cancelled _ _ => ⟨Except.ok none, false, false, 0⟩
        | StageOut.finished k _ =>
          if cancelFlag ca k then ⟨Except.ok none, false, false, 0⟩
          else if env.ffmpegFound = false then
            ⟨Except.error "ffmpeg not found", true, false, 0⟩
          else if env.ffmpegOk then ⟨Except.ok (some outPath), false, true, 2⟩
          else ⟨Except.error "FFmpeg processing failed", false, env.ffmpegPartialOnFail, 2⟩

/-- VideoProcessor.run (encoder.py lines 83-182): the try body runInner with
the single except handler of lines 181-182, which re-raises every exception
as a generic one whose message is "Processing error: " followed by the
original message. -/
def runModel (p : VideoProcessor) (env : RunEnv) (ca : Option ℕ) : RunResult :=
  let r := runInner p env ca
  ⟨match r.result with
    | Except.error m => Except.error ("Processing error: " ++ m)
    | Except.ok v => Except.ok v,
   r.tempExists, r.outputExists, r.spawned⟩

/-- Frame count the loop reaches when the caller never cancels and no frame
crashes: the minimum of the loop bound and the frames available. -/
def framesIfUncancelled (p : VideoProcessor) (env : RunEnv) : ℕ :=
  min (frames_to_process env.fps p.trim_seconds env.totalFrames).toNat
    (availFrames env.fps p.trim_seconds env.decodableFrames)

/-- Concrete occlusion region (normalized x 0.25, width 0.25) for evaluation. -/
def barC2 : Bar := ⟨1 / 4, 0, 1 / 4, 1 / 10⟩

/-- Concrete occlusion region near the bottom of the frame (normalized
y 0.8, height 0.15) for evaluation. -/
def barC3 : Bar := ⟨1 / 10, 4 / 5, 1 / 5, 3 / 20⟩

/-- Concrete job with the mirror flag off. -/
def pC1 : VideoProcessor := ⟨"clip.mp4", "output", [], 0, "NONE", none, true, false⟩

/-- Concrete job carrying one occlusion region, filter WARM. -/
def pC3 : VideoProcessor := ⟨"clip.mp4", "output", [barC3], 0, "WARM", none, true, true⟩

/-- Concrete job with no trim, no URL, no occlusion regions. -/
def pC4 : VideoProcessor := ⟨"clip.mp4", "output", [], 0, "WARM", none, true, true⟩

/-- Concrete well-behaved environment: plenty of disk, a 5-frame video. -/
def envC4 : RunEnv :=
  ⟨true, 10, none, 30, 5, 5, true, true, fun _ => false, "", true, true, true, false⟩

/-- Concrete environment whose edge computation raises on frame 0 of a
2-frame video. -/
def envC5 : RunEnv :=
  ⟨true, 10, none, 30, 2, 2, true, true, fun j => decide (j = 0), "edge failure",
   true, true, true, false⟩

/-- Concrete 60-frame loop environment with a progress callback. -/
def loopEnvC6 : LoopEnv := ⟨true, none, fun _ => false, 60, 60⟩

/-- Concrete environment with only 0.5 GB of free disk space. -/
def envC7 : RunEnv :=
  ⟨true, 1 / 2, none, 30, 5, 5, true, true, fun _ => false, "", true, true, true, false⟩

/-- Concrete job trimming 10 seconds from the start. -/
def pC8 : VideoProcessor := ⟨"clip.mp4", "output", [], 10, "WARM", none, true, true⟩

/-- Concrete environment: 100-frame video at 30 fps, fully decodable. -/
def envC8 : RunEnv :=
  ⟨true, 10, none, 30, 100, 100, true, true, fun _ => false, "", true, true, true, false⟩

/-- Concrete job: mirrored, no occlusion regions. -/
def pC9a : VideoProcessor := ⟨"temp/clip.mp4", "out", [], 0, "WARM", none, true, true⟩

/-- Concrete job identical to pC9a except the mirror flag is off and one
occlusion region is present. -/
def pC9b : VideoProcessor := ⟨"temp/clip.mp4", "out", [barC2], 0, "WARM", none, true, false⟩

/-- Evaluation of the drawbox rectangle of barC3 on a 1920x1080 source. -/
theorem barC3_rect_eval : barPixelRect barC3 1920 1080 = ⟨1344, 864, 384, 162⟩ := by
  simp only [barPixelRect, barRawX, barC3]
  norm_num [pyInt]

/-- Claim C1, counterexample: a job whose mirror flag is off still gets the
hflip step in its filter chain, so the chain contains the horizontal flip
even though mirror is not set. -/
theorem c1_counterexample_hflip_without_mirror :
    pC1.mirror = false ∧ FilterStep.hflip ∈ buildFilterSteps pC1 1280 720 :=
  ⟨rfl, by simp [buildFilterSteps]⟩

/-- Claim C1, amended: the filter chain built by the filter-graph stage
contains the horizontal-flip step for every job and every frame size,
regardless of the mirror flag (encoder.py lines 303-304 append it
unconditionally, and the method never reads the mirror field). -/
theorem c1_amended_hflip_always_on (p : VideoProcessor) (width height : ℤ) :
    FilterStep.hflip ∈ buildFilterSteps p width height := by
  simp [buildFilterSteps]

/-- Claim C2, counterexample: for the region barC2 on a 10x10 frame the code
computes drawbox x = 5, while the claim formula width - x - w over the pixel
coordinates of the region as originally drawn gives 10 - 2 - 2 = 6, so the
code does not re-reflect the pixel x coordinate as width - x - w. -/
theorem c2_counterexample_reflection_formula :
    (barPixelRect barC2 10 10).x = 5 ∧
    10 - (unmirroredRect barC2 10 10).x - (unmirroredRect barC2 10 10).w = 6 := by
  constructor
  · simp only [barPixelRect, barRawX, barC2]
    norm_num [pyInt]
  · simp only [unmirroredRect, barC2]
    norm_num [pyInt]

/-- Claim C2, amended: the code re-reflects the x coordinate in normalized
space before pixel conversion — the raw drawbox x equals the truncation of
width - x*width - w*width over the exact normalized values — and occluding a
mirrored frame at a pixel rectangle R equals mirroring the frame occluded at
the reflected rectangle reflect(R) whose x is width - R.x - R.w. -/
theorem c2_amended_normalized_reflection (b : Bar) (width w' : ℤ) (f : Frame)
    (r : PixelRect) :
    barRawX b width = pyInt ((width : ℚ) - b.x * width - b.width * width) ∧
    occlude r (mirrorFrame w' f) = mirrorFrame w' (occlude (reflectRect w' r) f) := by
  constructor
  · unfold barRawX
    congr 1
    ring
  · funext x y
    simp only [occlude, mirrorFrame, reflectRect]
    exact if_congr (by omega) rfl rfl

/-- Claim C3, code bug evaluation: the cartoon stage hands the filter-graph
stage a 1280x720 intermediate file for a 1920x1080 source, the drawbox step
for barC3 is applied at exactly those 1280x720 dimensions, and its rectangle
ends at row 864 + 162 = 1026, beyond the 720-row frame it is applied to —
although it stays inside the declared 1920x1080 target size the clamps of
encoder.py lines 314-317 were computed against. -/
theorem c3_out_of_bounds_drawbox :
    cartoonOutDims 1920 1080 = (1280, 720) ∧
    (FilterStep.drawbox (barPixelRect barC3 1920 1080), cartoonOutDims 1920 1080) ∈
      dimsBefore (cartoonOutDims 1920 1080) (buildFilterSteps pC3 1920 1080) ∧
    720 < (barPixelRect barC3 1920 1080).y + (barPixelRect barC3 1920 1080).h ∧
    (barPixelRect barC3 1920 1080).y + (barPixelRect barC3 1920 1080).h ≤ 1080 := by
  refine ⟨?_, ?_, ?_, ?_⟩
  · simp only [cartoonOutDims, process_width, process_height]
    norm_num [pyInt]
  · exact List.Mem.tail _ (List.Mem.tail _ (List.Mem.head _))
  · rw [barC3_rect_eval]
    norm_num
  · rw [barC3_rect_eval]
    norm_num

/-- Loop lemma: when the cancellation schedule fires at N, no earlier frame
crashes, and at least N frames are available, the loop stops with exactly N
frames, exiting cancelled (flag seen at the top of iteration N) or finished
(iteration bound ends exactly at N). -/
theorem cartoonLoop_cancel (e : LoopEnv) (N : ℕ) (hca : e.cancelAfter = some N)
    (hef : ∀ j, j < N → e.edgeFails j = false) :
    ∀ r fc, fc ≤ N → N ≤ fc + r → N ≤ e.avail →
      (cartoonLoop e r fc).frames = N ∧
      ((cartoonLoop e r fc).exit = LoopExit.cancelled ∨
       (cartoonLoop e r fc).exit = LoopExit.finished) := by
  intro r
  induction r with
  | zero =>
    intro fc h1 h2 h3
    have hfc : fc = N := by omega
    subst hfc
    exact ⟨rfl, Or.inr rfl⟩
  | succ r ih =>
    intro fc h1 h2 h3
    rcases Nat.lt_or_ge fc N with hlt | hge
    · have hflag : cancelFlag e.cancelAfter fc = false := by
        rw [hca]
        simp only [cancelFlag, decide_eq_false_iff_not]
        omega
      have hread : fc < e.avail := by omega
      have hedge : e.edgeFails fc = false := hef fc hlt
      simp only [cartoonLoop, hflag, Bool.false_eq_true, if_false, if_pos hread, hedge]
      exact ih (fc + 1) (by omega) (by omega) h3
    · have hfc : fc = N := by omega
      subst hfc
      have hflag : cancelFlag e.cancelAfter fc = true := by
        rw [hca]
        simp [cancelFlag]
      simp only [cartoonLoop, hflag, if_true]
      simp

/-- Loop lemma: if the caller never cancels, no frame before k crashes, the
edge computation raises on frame k, and frame k is readable within the loop
bound, the loop crashes with exactly k frames written. -/
theorem cartoonLoop_crash (e : LoopEnv) (k : ℕ) (hca : e.cancelAfter = none)
    (hef1 : ∀ j, j < k → e.edgeFails j = false) (hef2 : e.edgeFails k = true)
    (hk : k < e.avail) :
    ∀ r fc, fc ≤ k → k < fc + r →
      (cartoonLoop e r fc).exit = LoopExit.crashed ∧ (cartoonLoop e r fc).frames = k := by
  intro r
  induction r with
  | zero =>
    intro fc h1 h2
    omega
  | succ r ih =>
    intro fc h1 h2
    have hflag : cancelFlag e.cancelAfter fc = false := by rw [hca]; rfl
    rcases Nat.lt_or_ge fc k with hlt | hge
    · have hread : fc < e.avail := by omega
      have hedge : e.edgeFails fc = false := hef1 fc hlt
      simp only [cartoonLoop, hflag, Bool.false_eq_true, if_false, if_pos hread, hedge]
      exact ih (fc + 1) (by omega) (by omega)
    · have hfc : fc = k := by omega
      subst hfc
      simp only [cartoonLoop, hflag, Bool.false_eq_true, if_false, if_pos hk, hef2, if_true]
      simp

/-- Loop lemma: with no cancellation and no frame crash, the loop finishes
and writes min (fc + r) (max fc avail) frames. -/
theorem cartoonLoop_full (e : LoopEnv) (hca : e.cancelAfter = none)
    (hef : ∀ j, e.edgeFails j = false) :
    ∀ r fc, (cartoonLoop e r fc).frames = min (fc + r) (max fc e.avail) ∧
      (cartoonLoop e r fc).exit = LoopExit.finished := by
  intro r
  induction r with
  | zero =>
    intro fc
    refine ⟨?_, rfl⟩
    show fc = min (fc + 0) (max fc e.avail)
    omega
  | succ r ih =>
    intro fc
    have hflag : cancelFlag e.cancelAfter fc = false := by rw [hca]; rfl
    by_cases hread : fc < e.avail
    · have hedge : e.edgeFails fc = false := hef fc
      simp only [cartoonLoop, hflag, Bool.false_eq_true, if_false, if_pos hread, hedge]
      refine ⟨?_, (ih (fc + 1)).2⟩
      rw [(ih (fc + 1)).1]
      omega
    · refine ⟨?_, ?_⟩
      · simp only [cartoonLoop, hflag, Bool.false_eq_true, if_false, if_neg hread]
        show fc = min (fc + (r + 1)) (max fc e.avail)
        omega
      · simp only [cartoonLoop, hflag, Bool.false_eq_true, if_false, if_neg hread]

/-- Claim C4: in an environment where the run would otherwise proceed (disk
check passes, download leg succeeds when taken, capture and writer open),
setting the cancellation flag once N processed frames are reached — for any
N the run actually reaches — makes run return None rather than raise, and no
final output file is left on disk. -/
theorem c4_cancel_returns_none (p : VideoProcessor) (env : RunEnv) (N : ℕ)
    (hdisk : (check_disk_space env.diskQueryOk env.availableGB 2).1 = true)
    (hdl : wantsDownload p = true → env.downloadResult.isSome = true)
    (hcap : env.capOpens = true) (hwr : env.writerOpens = true)
    (hef : ∀ j, j < N → env.edgeFails j = false)
    (hN : N ≤ framesIfUncancelled p env) :
    (runModel p env (some N)).result = Except.ok none ∧
    (runModel p env (some N)).outputExists = false := by
  have hloop := cartoonLoop_cancel (loopEnvOf p env (some N)) N rfl hef
    (loopEnvOf p env (some N)).ftp.toNat 0 (Nat.zero_le N) (by
      have : N ≤ (frames_to_process env.fps p.trim_seconds env.totalFrames).toNat := by
        have := hN
        unfold framesIfUncancelled at this
        omega
      simpa using this)
    (by
      have : N ≤ availFrames env.fps p.trim_seconds env.decodableFrames := by
        have := hN
        unfold framesIfUncancelled at this
        omega
      exact this)
  by_cases hN0 : N = 0
  · subst hN0
    have hflag0 : cancelFlag (some 0) 0 = true := rfl
    simp only [runModel, runInner, hdisk, Bool.true_eq_false, if_false]
    cases hw : wantsDownload p with
    | false =>
      simp only [if_neg (by simp [hw] : ¬ wantsDownload p = true), hflag0, if_true]
      exact ⟨by trivial, by trivial⟩
    | true =>
      have hsome := hdl hw
      cases hdr : env.downloadResult with
      | none => rw [hdr] at hsome; cases hsome
      | some path =>
        simp only [if_pos hw, hdr, hflag0, if_true]
        exact ⟨by trivial, by trivial⟩
  · have hflag0 : cancelFlag (some N) 0 = false := by
      simp only [cancelFlag, decide_eq_false_iff_not]
      omega
    have hstage : (∃ tr, cartoonStage p env (some N) = StageOut.cancelled N tr) ∨
        (∃ tr, cartoonStage p env (some N) = StageOut.finished N tr) := by
      unfold cartoonStage
      rw [hcap, hwr]
      simp only [Bool.true_eq_false, if_false]
      rcases hloop.2 with hex | hex
      · rw [hex]
        exact Or.inl ⟨_, congrArg
          (fun n => StageOut.cancelled n
            (cartoonLoop (loopEnvOf p env (some N)) (loopEnvOf p env (some N)).ftp.toNat 0).trace)
          hloop.1⟩
      · rw [hex]
        exact Or.inr ⟨_, congrArg
          (fun n => StageOut.finished n
            (cartoonLoop (loopEnvOf p env (some N)) (loopEnvOf p env (some N)).ftp.toNat 0).trace)
          hloop.1⟩
    have hflagN : cancelFlag (some N) N = true := by simp [cancelFlag]
    simp only [runModel, runInner, hdisk, Bool.true_eq_false, if_false]
    cases hw : wantsDownload p with
    | false =>
      simp only [if_neg (by simp [hw] : ¬ wantsDownload p = true), hflag0,
        Bool.false_eq_true, if_false]
      rcases hstage with ⟨tr, hs⟩ | ⟨tr, hs⟩
      · rw [hs]
        exact ⟨by trivial, by trivial⟩
      · rw [hs]
        simp only [hflagN, if_true]
        exact ⟨by trivial, by trivial⟩
    | true =>
      have hsome := hdl hw
      cases hdr : env.downloadResult with
      | none => rw [hdr] at hsome; cases hsome
      | some path =>
        simp only [if_pos hw, hdr, hflag0, Bool.false_eq_true, if_false]
        rcases hstage with ⟨tr, hs⟩ | ⟨tr, hs⟩
        · rw [hs]
          exact ⟨by trivial, by trivial⟩
        · rw [hs]
          simp only [hflagN, if_true]
          exact ⟨by trivial, by trivial⟩

/-- Disk guard evaluation for the well-behaved environment envC4. -/
theorem envC4_disk : (check_disk_space envC4.diskQueryOk envC4.availableGB 2).1 = true := by
  simp only [check_disk_space, envC4]
  norm_num

/-- Disk guard evaluation for envC5. -/
theorem envC5_disk : (check_disk_space envC5.diskQueryOk envC5.availableGB 2).1 = true := by
  simp only [check_disk_space, envC5]
  norm_num

/-- Frame budget of the job pC4 in envC4: 5 frames. -/
theorem envC4_frames : framesIfUncancelled pC4 envC4 = 5 := by
  simp only [framesIfUncancelled, frames_to_process, skip_frames, availFrames, seek_pos,
    pC4, envC4]
  norm_num [pyInt]
  decide

/-- Two frames can be reached before cancellation in envC4. -/
theorem envC4_hN : 2 ≤ framesIfUncancelled pC4 envC4 := by
  rw [envC4_frames]
  omega

/-- Claim C4, witness: for the concrete job pC4 in envC4, cancelling after 2
processed frames returns None and leaves no output file. -/
theorem c4_witness :
    2 ≤ framesIfUncancelled pC4 envC4 ∧
    (runModel pC4 envC4 (some 2)).result = Except.ok none ∧
    (runModel pC4 envC4 (some 2)).outputExists = false := by
  have h := c4_cancel_returns_none pC4 envC4 2 envC4_disk (by decide) rfl rfl
    (by decide) envC4_hN
  exact ⟨envC4_hN, h.1, h.2⟩

/-- The loop environment of pC4 in envC5: a 2-frame budget, 2 frames
available. -/
theorem loopEnvC5_eval : loopEnvOf pC4 envC5 none =
    ⟨true, none, fun j => decide (j = 0), 2, 2⟩ := by
  unfold loopEnvOf
  have h1 : frames_to_process envC5.fps pC4.trim_seconds envC5.totalFrames = 2 := by
    simp only [frames_to_process, skip_frames, envC5, pC4]
    norm_num [pyInt]
  have h2 : availFrames envC5.fps pC4.trim_seconds envC5.decodableFrames = 2 := by
    simp only [availFrames, seek_pos, skip_frames, envC5, pC4]
    norm_num [pyInt]
    decide
  rw [h1, h2]
  rfl

/-- The frame budget in envC5 is positive. -/
theorem envC5_hk1 : 0 < (frames_to_process envC5.fps pC4.trim_seconds envC5.totalFrames).toNat := by
  have h1 : frames_to_process envC5.fps pC4.trim_seconds envC5.totalFrames = 2 := by
    simp only [frames_to_process, skip_frames, envC5, pC4]
    norm_num [pyInt]
  rw [h1]
  decide

/-- Frames are available in envC5. -/
theorem envC5_hk2 : 0 < availFrames envC5.fps pC4.trim_seconds envC5.decodableFrames := by
  have h2 : availFrames envC5.fps pC4.trim_seconds envC5.decodableFrames = 2 := by
    simp only [availFrames, seek_pos, skip_frames, envC5, pC4]
    norm_num [pyInt]
    decide
  rw [h2]
  decide

/-- Claim C5, counterexample: in envC5, where the edge computation raises on
frame 0 of a 2-frame video, the run aborts with a raised generic exception
carrying the frame error, and zero frames are written — the unmodified frame
is not substituted and processing does not continue. -/
theorem c5_counterexample_frame_fault_aborts :
    (runModel pC4 envC5 none).result = Except.error "Processing error: edge failure" ∧
    (cartoonStage pC4 envC5 none).framesCount = 0 := by
  have hstage : cartoonStage pC4 envC5 none = StageOut.crashed 0 [] := by
    unfold cartoonStage
    rw [loopEnvC5_eval]
    rfl
  have hwd : wantsDownload pC4 = false := rfl
  have hcf : cancelFlag (none : Option ℕ) 0 = false := rfl
  constructor
  · simp only [runModel, runInner, envC5_disk, Bool.true_eq_false, if_false, hwd,
      Bool.false_eq_true, hcf]
    rw [hstage]
    rfl
  · rw [hstage]
    rfl

/-- Claim C5, amended: when the per-frame edge computation raises on frame k
(and the run otherwise proceeds normally with k within the frame budget and
the available frames), the exception propagates out of the cartoon stage and
run re-raises it as a generic "Processing error:" exception; the temporary
intermediate file is left on disk. -/
theorem c5_amended_frame_fault_propagates (p : VideoProcessor) (env : RunEnv) (k : ℕ)
    (hdisk : (check_disk_space env.diskQueryOk env.availableGB 2).1 = true)
    (hdl : wantsDownload p = true → env.downloadResult.isSome = true)
    (hcap : env.capOpens = true) (hwr : env.writerOpens = true)
    (hef1 : ∀ j, j < k → env.edgeFails j = false) (hef2 : env.edgeFails k = true)
    (hk1 : k < (frames_to_process env.fps p.trim_seconds env.totalFrames).toNat)
    (hk2 : k < availFrames env.fps p.trim_seconds env.decodableFrames) :
    (runModel p env none).result = Except.error ("Processing error: " ++ env.frameErrMsg) ∧
    (runModel p env none).tempExists = true := by
  have hcr := cartoonLoop_crash (loopEnvOf p env none) k rfl hef1 hef2 hk2
    (loopEnvOf p env none).ftp.toNat 0 (Nat.zero_le k) (by simpa using hk1)
  have hstage : ∃ tr, cartoonStage p env none = StageOut.crashed k tr := by
    unfold cartoonStage
    rw [hcap, hwr]
    simp only [Bool.true_eq_false, if_false]
    rw [hcr.1]
    exact ⟨_, congrArg
      (fun n => StageOut.crashed n
        (cartoonLoop (loopEnvOf p env none) (loopEnvOf p env none).ftp.toNat 0).trace)
      hcr.2⟩
  obtain ⟨tr, hs⟩ := hstage
  have hcf : cancelFlag (none : Option ℕ) 0 = false := rfl
  simp only [runModel, runInner, hdisk, Bool.true_eq_false, if_false]
  cases hw : wantsDownload p with
  | false =>
    simp only [if_neg (by simp [hw] : ¬ wantsDownload p = true), hcf,
      Bool.false_eq_true, if_false]
    rw [hs]
    exact ⟨by trivial, by trivial⟩
  | true =>
    have hsome := hdl hw
    cases hdr : env.downloadResult with
    | none => rw [hdr] at hsome; cases hsome
    | some path =>
      simp only [if_pos hw, hdr, hcf, Bool.false_eq_true, if_false]
      rw [hs]
      exact ⟨by trivial, by trivial⟩

/-- Claim C5, witness: the amended behaviour at the concrete input pC4 and
envC5 with the fault on frame 0. -/
theorem c5_witness :
    0 < availFrames envC5.fps pC4.trim_seconds envC5.decodableFrames ∧
    (runModel pC4 envC5 none).result = Except.error ("Processing error: " ++ envC5.frameErrMsg) ∧
    (runModel pC4 envC5 none).tempExists = true := by
  have h := c5_amended_frame_fault_propagates pC4 envC5 0 envC5_disk (by decide) rfl rfl
    (fun j hj => absurd hj (Nat.not_lt_zero j)) rfl envC5_hk1 envC5_hk2
  exact ⟨envC5_hk2, h.1, h.2⟩

/-- Every event the cartoon-stage frame loop emits is a frame write, a
progress report or a debug print. -/
theorem cartoonLoop_trace_shape (e : LoopEnv) :
    ∀ r fc ev, ev ∈ (cartoonLoop e r fc).trace →
      (∃ k, ev = Ev.writeFrame k) ∨ (∃ q, ev = Ev.progress q) ∨
      (∃ k, ev = Ev.debugPrint k) := by
  intro r
  induction r with
  | zero =>
    intro fc ev h
    simp [cartoonLoop] at h
  | succ r ih =>
    intro fc ev h
    by_cases hflag : cancelFlag e.cancelAfter fc = true
    · simp only [cartoonLoop, hflag, if_true] at h
      simp at h
    · have hflag' : cancelFlag e.cancelAfter fc = false := by simpa using hflag
      by_cases hread : fc < e.avail
      · by_cases hedge : e.edgeFails fc = true
        · simp only [cartoonLoop, hflag', Bool.false_eq_true, if_false, if_pos hread,
            hedge, if_true] at h
          simp at h
        · have hedge' : e.edgeFails fc = false := by simpa using hedge
          simp only [cartoonLoop, hflag', Bool.false_eq_true, if_false, if_pos hread,
            hedge'] at h
          rcases List.mem_cons.mp h with h | h
          · exact Or.inl ⟨fc, h⟩
          rcases List.mem_append.mp h with h12 | hrest
          · rcases List.mem_append.mp h12 with h | h
            · by_cases hc : e.hasCb = true ∧ (fc + 1) % 30 = 0
              · rw [if_pos hc] at h
                rcases List.mem_singleton.mp h with h
                exact Or.inr (Or.inl ⟨_, h⟩)
              · rw [if_neg hc] at h
                simp at h
            · by_cases hc : (fc + 1) % 500 = 0
              · rw [if_pos hc] at h
                rcases List.mem_singleton.mp h with h
                exact Or.inr (Or.inr ⟨_, h⟩)
              · rw [if_neg hc] at h
                simp at h
          · exact ih (fc + 1) ev hrest
      · simp only [cartoonLoop, hflag', Bool.false_eq_true, if_false, if_neg hread] at h
        simp at h

/-- Every frame count k that is a multiple of 30 and is reached by the loop
gets a progress event with value k divided by the frame budget times 100. -/
theorem cartoonLoop_progress_mem (e : LoopEnv) (hcb : e.hasCb = true) :
    ∀ r fc k, fc < k → k ≤ (cartoonLoop e r fc).frames → k % 30 = 0 →
      Ev.progress ((k : ℚ) / (e.ftp : ℚ) * 100) ∈ (cartoonLoop e r fc).trace := by
  intro r
  induction r with
  | zero =>
    intro fc k h1 h2 h3
    simp only [cartoonLoop] at h2
    omega
  | succ r ih =>
    intro fc k h1 h2 h3
    by_cases hflag : cancelFlag e.cancelAfter fc = true
    · simp only [cartoonLoop, hflag, if_true] at h2 ⊢
      omega
    · have hflag' : cancelFlag e.cancelAfter fc = false := by simpa using hflag
      by_cases hread : fc < e.avail
      · by_cases hedge : e.edgeFails fc = true
        · simp only [cartoonLoop, hflag', Bool.false_eq_true, if_false, if_pos hread,
            hedge, if_true] at h2 ⊢
          omega
        · have hedge' : e.edgeFails fc = false := by simpa using hedge
          simp only [cartoonLoop, hflag', Bool.false_eq_true, if_false, if_pos hread,
            hedge'] at h2 ⊢
          rcases Nat.eq_or_lt_of_le (Nat.succ_le_of_lt h1) with hk | hk
          · apply List.mem_cons_of_mem
            apply List.mem_append_left
            apply List.mem_append_left
            have hcond : e.hasCb = true ∧ (fc + 1) % 30 = 0 := ⟨hcb, by omega⟩
            rw [if_pos hcond]
            have hq : ((k : ℚ)) = (fc : ℚ) + 1 := by
              rw [← hk]
              push_cast
              ring
            rw [hq]
            exact List.mem_singleton_self _
          · apply List.mem_cons_of_mem
            apply List.mem_append_right
            exact ih (fc + 1) k hk h2 h3
      · simp only [cartoonLoop, hflag', Bool.false_eq_true, if_false, if_neg hread] at h2 ⊢
        omega

/-- Claim C6, counterexample: over a full 60-frame loop with a progress
callback, the trace contains no temperature-sampling event at all (in
particular none at frames 30 and 60), so the stage does not sample the CPU
temperature every 30 frames. -/
theorem c6_counterexample_no_temperature_sampling :
    Ev.tempSample ∉ (cartoonLoop loopEnvC6 60 0).trace := by
  decide

/-- Claim C6, amended: every 30 frames the loop reports progress (frame
count over frame budget, times 100) when a callback is present, and the loop
never samples the CPU temperature and never sleeps — encoder.py lines
277-281 contain only the progress callback and a debug print, and no thermal
pacing exists anywhere in the stage. -/
theorem c6_amended_progress_not_thermal (e : LoopEnv) (r fc : ℕ) :
    Ev.tempSample ∉ (cartoonLoop e r fc).trace ∧
    (∀ q, Ev.sleep q ∉ (cartoonLoop e r fc).trace) ∧
    (e.hasCb = true → ∀ k, fc < k → k ≤ (cartoonLoop e r fc).frames → k % 30 = 0 →
      Ev.progress ((k : ℚ) / (e.ftp : ℚ) * 100) ∈ (cartoonLoop e r fc).trace) := by
  refine ⟨?_, ?_, ?_⟩
  · intro hmem
    rcases cartoonLoop_trace_shape e r fc _ hmem with ⟨k, hk⟩ | ⟨q, hq⟩ | ⟨k, hk⟩
    · exact Ev.noConfusion hk
    · exact Ev.noConfusion hq
    · exact Ev.noConfusion hk
  · intro q hmem
    rcases cartoonLoop_trace_shape e r fc _ hmem with ⟨k, hk⟩ | ⟨q2, hq⟩ | ⟨k, hk⟩
    · exact Ev.noConfusion hk
    · exact Ev.noConfusion hq
    · exact Ev.noConfusion hk
  · intro hcb k h1 h2 h3
    exact cartoonLoop_progress_mem e hcb r fc k h1 h2 h3

/-- Claim C6, witness: in the concrete 60-frame loop, frame 30 gets its
progress event and no temperature sample appears. -/
theorem c6_witness :
    Ev.tempSample ∉ (cartoonLoop loopEnvC6 60 0).trace ∧
    Ev.progress (((30 : ℕ) : ℚ) / ((loopEnvC6.ftp : ℚ)) * 100) ∈
      (cartoonLoop loopEnvC6 60 0).trace :=
  ⟨(c6_amended_progress_not_thermal loopEnvC6 60 0).1,
   (c6_amended_progress_not_thermal loopEnvC6 60 0).2.2 rfl 30 (by decide) (by decide) rfl⟩

/-- Claim C7: whenever the disk query works and reports less than 2 GB free,
the run raises the insufficient-disk-space error carrying the formatted
available space, and no child process is spawned. -/
theorem c7_low_disk_fails_before_spawn (p : VideoProcessor) (env : RunEnv) (ca : Option ℕ)
    (hq : env.diskQueryOk = true) (hlow : env.availableGB < 2) :
    (runModel p env ca).result =
      Except.error ("Processing error: Insufficient disk space. Need 2GB, have " ++
        format_size (env.availableGB * 1024 ^ 3)) ∧
    (runModel p env ca).spawned = 0 := by
  have hd : check_disk_space env.diskQueryOk env.availableGB 2 = (false, env.availableGB) := by
    rw [hq]
    unfold check_disk_space
    rw [if_pos rfl, decide_eq_false (not_le.mpr hlow)]
  simp only [runModel, runInner, hd]
  exact ⟨by trivial, by trivial⟩

/-- The concrete environment envC7 reports less than 2 GB free. -/
theorem envC7_low : envC7.availableGB < 2 := by
  simp only [envC7]
  norm_num

/-- Claim C7, witness: concrete run with 0.5 GB free fails with the
insufficient-disk-space error and spawns nothing. -/
theorem c7_witness :
    (runModel pC4 envC7 none).result =
      Except.error ("Processing error: Insufficient disk space. Need 2GB, have " ++
        format_size (envC7.availableGB * 1024 ^ 3)) ∧
    (runModel pC4 envC7 none).spawned = 0 :=
  c7_low_disk_fails_before_spawn pC4 envC7 none rfl envC7_low

/-- Evaluation of the concrete low-disk run, used to instantiate the generic
error-prefix theorem. -/
theorem runC7_eval : (runModel pC4 envC7 none).result =
    Except.error ("Processing error: Insufficient disk space. Need 2GB, have " ++
      format_size (envC7.availableGB * 1024 ^ 3)) := by
  have hd : check_disk_space envC7.diskQueryOk envC7.availableGB 2 =
      (false, envC7.availableGB) := by
    have hq : envC7.diskQueryOk = true := rfl
    rw [hq]
    unfold check_disk_space
    rw [if_pos rfl, decide_eq_false (not_le.mpr envC7_low)]
  simp only [runModel, runInner, hd]
  rfl

/-- Claim C10: every exception escaping run has a message that is
"Processing error: " followed by the original message — the except handler
of encoder.py lines 181-182 re-raises everything as one generic exception
type, so the failure kinds are not distinguishable by type. -/
theorem c10_errors_wrapped_generic (p : VideoProcessor) (env : RunEnv) (ca : Option ℕ)
    (m : String) (h : (runModel p env ca).result = Except.error m) :
    ∃ s, m = "Processing error: " ++ s := by
  simp only [runModel] at h
  cases hres : (runInner p env ca).result with
  | error m2 =>
    rw [hres] at h
    simp only [Except.error.injEq] at h
    exact ⟨m2, h.symm⟩
  | ok v =>
    rw [hres] at h
    simp at h

/-- Claim C10, witness: the concrete low-disk failure message carries the
generic prefix. -/
theorem c10_witness :
    ∃ s, ("Processing error: Insufficient disk space. Need 2GB, have " ++
      format_size (envC7.availableGB * 1024 ^ 3)) = "Processing error: " ++ s :=
  c10_errors_wrapped_generic pC4 envC7 none _ runC7_eval

/-- Frame budget of the job pC8 in envC8: trimming 10 seconds at 30 fps skips
300 frames of a 100-frame video, so frames_to_process is negative. -/
theorem envC8_ftp : frames_to_process envC8.fps pC8.trim_seconds envC8.totalFrames = -200 := by
  simp only [frames_to_process, skip_frames, envC8, pC8]
  norm_num [pyInt]

/-- No frames are available after seeking past the end in envC8. -/
theorem envC8_avail : availFrames envC8.fps pC8.trim_seconds envC8.decodableFrames = 0 := by
  simp only [availFrames, seek_pos, skip_frames, envC8, pC8]
  norm_num [pyInt]

/-- The loop environment of pC8 in envC8. -/
theorem envC8_loopEnv : loopEnvOf pC8 envC8 none = ⟨true, none, fun _ => false, -200, 0⟩ := by
  unfold loopEnvOf
  rw [envC8_ftp, envC8_avail]
  rfl

/-- The cartoon stage of pC8 in envC8 finishes with zero frames. -/
theorem c8_stage_eval : cartoonStage pC8 envC8 none = StageOut.finished 0 [] := by
  unfold cartoonStage
  rw [envC8_loopEnv]
  rfl

/-- The skip count of pC8 in envC8 is 300 frames. -/
theorem envC8_skip : skip_frames envC8.fps pC8.trim_seconds = 300 := by
  simp only [skip_frames, envC8, pC8]
  norm_num [pyInt]

/-- Claim C8, counterexample: for a 100-frame video at 30 fps with a
10-second trim, the cartoon stage writes 0 frames even though decoding
yields 100 frames, and 0 does not satisfy the claimed bound because
totalFrames - skippedFrames is -200. -/
theorem c8_counterexample_bound_fails :
    ¬ (((cartoonStage pC8 envC8 none).framesCount : ℤ) ≤
        envC8.totalFrames - skip_frames envC8.fps pC8.trim_seconds) := by
  rw [c8_stage_eval, envC8_skip]
  decide

/-- Claim C8, amended: in a run with no cancellation and no frame fault, the
cartoon-stage frame count never exceeds max 0 (totalFrames - skipFrames),
and it is zero only when the frame budget frames_to_process is non-positive
(trim at or past the end) or the decoder yields no frame after the seek. -/
theorem c8_amended_frame_count_bound (p : VideoProcessor) (env : RunEnv)
    (hcap : env.capOpens = true) (hwr : env.writerOpens = true)
    (hef : ∀ j, env.edgeFails j = false) :
    (((cartoonStage p env none).framesCount : ℤ) ≤
      max 0 (env.totalFrames - skip_frames env.fps p.trim_seconds)) ∧
    ((cartoonStage p env none).framesCount = 0 →
      frames_to_process env.fps p.trim_seconds env.totalFrames ≤ 0 ∨
      availFrames env.fps p.trim_seconds env.decodableFrames = 0) := by
  have hfull := cartoonLoop_full (loopEnvOf p env none) rfl hef
    (loopEnvOf p env none).ftp.toNat 0
  have hstage : cartoonStage p env none = StageOut.finished
      (min (0 + (loopEnvOf p env none).ftp.toNat) (max 0 (loopEnvOf p env none).avail))
      (cartoonLoop (loopEnvOf p env none) (loopEnvOf p env none).ftp.toNat 0).trace := by
    unfold cartoonStage
    rw [hcap, hwr]
    simp only [Bool.true_eq_false, if_false]
    rw [hfull.2]
    exact congrArg (fun n => StageOut.finished n
      (cartoonLoop (loopEnvOf p env none) (loopEnvOf p env none).ftp.toNat 0).trace) hfull.1
  rw [hstage]
  have hftp : (loopEnvOf p env none).ftp =
      frames_to_process env.fps p.trim_seconds env.totalFrames := rfl
  have havail : (loopEnvOf p env none).avail =
      availFrames env.fps p.trim_seconds env.decodableFrames := rfl
  constructor
  · simp only [StageOut.framesCount]
    rw [hftp, havail]
    unfold frames_to_process
    by_cases hskip : 0 < skip_frames env.fps p.trim_seconds
    · rw [if_pos hskip]
      omega
    · rw [if_neg hskip]
      omega
  · intro h0
    simp only [StageOut.framesCount] at h0
    rw [hftp, havail] at h0
    omega

/-- Claim C8, witness: the amended bound at the concrete trimmed job. -/
theorem c8_witness :
    (((cartoonStage pC8 envC8 none).framesCount : ℤ) ≤
      max 0 (envC8.totalFrames - skip_frames envC8.fps pC8.trim_seconds)) ∧
    ((cartoonStage pC8 envC8 none).framesCount = 0 →
      frames_to_process envC8.fps pC8.trim_seconds envC8.totalFrames ≤ 0 ∨
      availFrames envC8.fps pC8.trim_seconds envC8.decodableFrames = 0) :=
  c8_amended_frame_count_bound pC8 envC8 rfl rfl (fun j => rfl)

/-- Appending the same string on the left is cancellative. -/
theorem str_cancel_left (a s t : String) (h : a ++ s = a ++ t) : s = t := by
  have hd : a.data ++ s.data = a.data ++ t.data := by
    rw [← String.data_append, ← String.data_append, h]
  exact congrArg String.mk (List.append_cancel_left hd)

/-- Appending the same string on the right is cancellative. -/
theorem str_cancel_right (s t m : String) (h : s ++ m = t ++ m) : s = t := by
  have hd : s.data ++ m.data = t.data ++ m.data := by
    rw [← String.data_append, ← String.data_append, h]
  exact congrArg String.mk (List.append_cancel_right hd)

/-- Claim C9, counterexample: two distinct jobs that differ in the mirror
flag and in the occlusion regions get the same output path — the filename
carries no mirror or occlusion tag and no timestamp, so the later run
silently overwrites the earlier one. -/
theorem c9_counterexample_distinct_jobs_collide :
    jobOutputPath pC9a = jobOutputPath pC9b ∧ pC9a.mirror ≠ pC9b.mirror ∧
    pC9a.bars ≠ pC9b.bars :=
  ⟨rfl, by decide, by decide⟩

/-- Lowercasing distinguishes the two preset names. -/
theorem warm_cool_lower_distinct : ¬ pyLower "WARM" = pyLower "COOL" := by decide

/-- Claim C9, amended: the output filename is the sanitized input stem plus
"_eyetest", the lowercased filter tag and ".mp4" under the output folder.
Two runs of the same job differing only in filterName produce distinct
filenames whenever both names are nonempty and lowercase to different
strings (in particular WARM versus COOL); the filename contains no mirror or
occlusion tag and no timestamp, so the path depends only on the output
folder, the input path and the filter name. -/
theorem c9_amended_filter_tag_distinguishes :
    (∀ folder path f1 f2 : String, ¬ f1 = "" → ¬ f2 = "" →
      ¬ pyLower f1 = pyLower f2 →
      ¬ generate_output_path folder path f1 = generate_output_path folder path f2) ∧
    (∀ p q : VideoProcessor, p.output_folder = q.output_folder →
      p.input_path = q.input_path → p.filter_name = q.filter_name →
      jobOutputPath p = jobOutputPath q) := by
  constructor
  · intro folder path f1 f2 h1 h2 hne heq
    unfold generate_output_path at heq
    rw [if_neg h1, if_neg h2] at heq
    have e1 := str_cancel_right _ _ _ heq
    have e2 := str_cancel_left _ _ _ e1
    have e3 := str_cancel_left _ _ _ e2
    exact hne e3
  · intro p q h1 h2 h3
    unfold jobOutputPath
    rw [h1, h2, h3]

/-- Claim C9, witness: WARM and COOL runs of the same job get distinct
paths, while jobs equal up to mirror and occlusions get the same path. -/
theorem c9_witness :
    ¬ generate_output_path "out" "temp/clip.mp4" "WARM" =
      generate_output_path "out" "temp/clip.mp4" "COOL" ∧
    jobOutputPath pC9a = jobOutputPath pC9b :=
  ⟨c9_amended_filter_tag_distinguishes.1 "out" "temp/clip.mp4" "WARM" "COOL"
    (by decide) (by decide) warm_cool_lower_distinct,
   c9_amended_filter_tag_distinguishes.2 pC9a pC9b rfl rfl rfl⟩

end EyeTest
